import Mathlib

/-!
Verification of the GPIO pin-control engine of the jetsonnano_manager
repository (`gpio_controller`): a shallow embedding of `services.py`
(the `GPIOService` sequencing engine), the action serializers and views,
and the `init_gpio_devices` provisioning command, together with theorems
about the specified behaviour.

Modelling conventions:
- A pin level is a `Bool` (`true` = HIGH, `false` = LOW), matching
  `set_pin_state`'s convention (`True for HIGH`).
- Durations are rationals (`ℚ`); the Python floats in play (0.1, 0.5,
  2.0, 5.0, 10.0, …) compare under IEEE doubles exactly as their rational
  readings do at every comparison the code performs.
- A hardware `GPIO.output` call may raise; we model the outcome of the
  k-th `GPIO.output` call inside one method body by an oracle
  `env : Nat → Bool` (`env k = true` means the k-th write succeeds). A
  failing call raises, so it produces no pin transition and the
  surrounding `try` block aborts, returning `False`.
- Each method returns the pair (returned boolean, trace of performed
  effects), the trace listing pin writes and sleeps in order. Mock mode
  performs no effects at all.
-/

/-- An observable hardware effect: a level written to a pin, or a sleep. -/
inductive Ev where
  | write (pin : Nat) (level : Bool)
  | sleep (d : ℚ)
deriving DecidableEq, Repr

/-- A straight-line GPIO action inside a `try` body: a `GPIO.output` call
or a `time.sleep` call. -/
inductive Act where
  | out (pin : Nat) (level : Bool)
  | sleep (d : ℚ)
deriving DecidableEq, Repr

/-- Run a straight-line `try` body: each `GPIO.output` call consults the
oracle `env` at its call index `k`; a failing call raises, aborting the
remaining statements with result `false`. Sleeps always happen. Returns
(reached the final `return True`, trace of effects performed). -/
def runActs (env : Nat → Bool) : List Act → Nat → Bool × List Ev
  | [], _ => (true, [])
  | Act.sleep d :: rest, k =>
      let r := runActs env rest k
      (r.1, Ev.sleep d :: r.2)
  | Act.out p l :: rest, k =>
      if env k then
        let r := runActs env rest (k + 1)
        (r.1, Ev.write p l :: r.2)
      else (false, [])

/-- State of `GPIOService`: whether the `RPi.GPIO` module imported
(`HAS_GPIO`) and the `initialized` flag. -/
structure GPIOService where
  has_gpio : Bool
  initialized : Bool
deriving DecidableEq, Repr

/-- `GPIOService.__init__` / `_init_gpio`: `initialized` starts `False`;
with no GPIO module it stays `False` (mock mode); otherwise
`GPIO.setmode` is attempted (`setmodeOk` tells whether it raises) and
`initialized` records the outcome. Never raises. -/
def initGpio (has_gpio : Bool) (setmodeOk : Bool) : GPIOService :=
  if has_gpio then
    if setmodeOk then ⟨true, true⟩ else ⟨true, false⟩
  else ⟨false, false⟩

/-- `GPIOService.pulse_pin`: mock mode returns `True` with no I/O;
initialized hardware mode runs LOW, sleep `duration`, HIGH; an
uninitialized hardware service falls through to `return False`. -/
def pulse_pin (s : GPIOService) (env : Nat → Bool) (pin : Nat) (duration : ℚ) :
    Bool × List Ev :=
  if !s.has_gpio then (true, [])
  else if s.initialized then
    runActs env [Act.out pin false, Act.sleep duration, Act.out pin true] 0
  else (false, [])

/-- `GPIOService.hold_pin_low`: same body as `pulse_pin` (LOW, sleep
`duration`, HIGH), transcribed from its own source lines. -/
def hold_pin_low (s : GPIOService) (env : Nat → Bool) (pin : Nat) (duration : ℚ) :
    Bool × List Ev :=
  if !s.has_gpio then (true, [])
  else if s.initialized then
    runActs env [Act.out pin false, Act.sleep duration, Act.out pin true] 0
  else (false, [])

/-- `GPIOService.sequence_ab`: hold `pin_a` LOW, pulse `pin_b` while
holding, release `pin_a` after a fixed 0.5 s settle sleep. -/
def sequence_ab (s : GPIOService) (env : Nat → Bool) (pin_a pin_b : Nat)
    (hold_time pulse_duration : ℚ) : Bool × List Ev :=
  if !s.has_gpio then (true, [])
  else if s.initialized then
    runActs env
      [Act.out pin_a false, Act.sleep hold_time,
       Act.out pin_b false, Act.sleep pulse_duration, Act.out pin_b true,
       Act.sleep (1/2), Act.out pin_a true] 0
  else (false, [])

/-- `GPIOService.sequence_ba`: mirror of `sequence_ab` with the roles of
the two pins swapped (hold `pin_b`, pulse `pin_a`). -/
def sequence_ba (s : GPIOService) (env : Nat → Bool) (pin_a pin_b : Nat)
    (hold_time pulse_duration : ℚ) : Bool × List Ev :=
  if !s.has_gpio then (true, [])
  else if s.initialized then
    runActs env
      [Act.out pin_b false, Act.sleep hold_time,
       Act.out pin_a false, Act.sleep pulse_duration, Act.out pin_a true,
       Act.sleep (1/2), Act.out pin_b true] 0
  else (false, [])

/-- `GPIOService.force_recovery_sequence`: delegates to `sequence_ab`
with the force-recovery pin first and `pulse_duration` left at its
default 0.5 s. -/
def force_recovery_sequence (s : GPIOService) (env : Nat → Bool)
    (force_recovery_pin reset_pin : Nat) (hold_time : ℚ) : Bool × List Ev :=
  sequence_ab s env force_recovery_pin reset_pin hold_time (1/2)

/-- `GPIOService.set_pin_state`: one write of HIGH (`true`) or LOW
(`false`). -/
def set_pin_state (s : GPIOService) (env : Nat → Bool) (pin : Nat) (state : Bool) :
    Bool × List Ev :=
  if !s.has_gpio then (true, [])
  else if s.initialized then
    runActs env [Act.out pin state] 0
  else (false, [])

/-- Claim C1: in hardware-initialized mode, `sequence_ab a b h t` returns
true iff all four of its pin writes succeed, and when they do its effects
are exactly a=LOW, sleep h, b=LOW, sleep t, b=HIGH, sleep 0.5, a=HIGH in
this order. -/
theorem sequence_ab_hw_trace (env : Nat → Bool) (a b : Nat) (h t : ℚ) :
    ((sequence_ab ⟨true, true⟩ env a b h t).1 = true ↔
      (env 0 = true ∧ env 1 = true ∧ env 2 = true ∧ env 3 = true)) ∧
    ((env 0 = true ∧ env 1 = true ∧ env 2 = true ∧ env 3 = true) →
      sequence_ab ⟨true, true⟩ env a b h t =
        (true, [Ev.write a false, Ev.sleep h, Ev.write b false, Ev.sleep t,
                Ev.write b true, Ev.sleep (1/2), Ev.write a true])) := by
  constructor
  · cases h0 : env 0 <;> cases h1 : env 1 <;> cases h2 : env 2 <;> cases h3 : env 3 <;>
      simp [sequence_ab, runActs, h0, h1, h2, h3]
  · rintro ⟨h0, h1, h2, h3⟩
    simp [sequence_ab, runActs, h0, h1, h2, h3]

/-- Witness for C1 at the concrete recovery-style call
`sequence_ab 19 26 2 0.5` with every write succeeding. -/
theorem sequence_ab_hw_trace_witness :
    sequence_ab ⟨true, true⟩ (fun _ => true) 19 26 2 (1/2) =
      (true, [Ev.write 19 false, Ev.sleep 2, Ev.write 26 false, Ev.sleep (1/2),
              Ev.write 26 true, Ev.sleep (1/2), Ev.write 19 true]) :=
  (sequence_ab_hw_trace (fun _ => true) 19 26 2 (1/2)).2 ⟨rfl, rfl, rfl, rfl⟩

/-- Claim C2: in hardware-initialized mode a failing write aborts both
sequence operations with result false; in particular when the first
write succeeds and the write setting `pin_b` LOW fails, `sequence_ab`'s
effects stop at [a=LOW, sleep h] and pin `a` is never written HIGH. -/
theorem sequence_fail_aborts (env : Nat → Bool) (a b : Nat) (h t : ℚ) :
    ((∃ k, k < 4 ∧ env k = false) →
      (sequence_ab ⟨true, true⟩ env a b h t).1 = false ∧
      (sequence_ba ⟨true, true⟩ env a b h t).1 = false) ∧
    (env 0 = true → env 1 = false →
      sequence_ab ⟨true, true⟩ env a b h t = (false, [Ev.write a false, Ev.sleep h]) ∧
      Ev.write a true ∉ ([Ev.write a false, Ev.sleep h] : List Ev)) := by
  constructor
  · rintro ⟨k, hk, hfail⟩
    cases h0 : env 0 <;> cases h1 : env 1 <;> cases h2 : env 2 <;> cases h3 : env 3 <;>
      simp [sequence_ab, sequence_ba, runActs, h0, h1, h2, h3] <;>
      · interval_cases k <;> simp_all
  · intro h0 h1
    refine ⟨by simp [sequence_ab, runActs, h0, h1], by simp⟩

/-- Witness for C2: with write 0 succeeding and write 1 failing,
`sequence_ab 19 26 2 0.5` returns false with only pin 19 driven LOW. -/
theorem sequence_fail_aborts_witness :
    (sequence_ab ⟨true, true⟩ (fun k => k == 0) 19 26 2 (1/2)).1 = false ∧
    sequence_ab ⟨true, true⟩ (fun k => k == 0) 19 26 2 (1/2) =
      (false, [Ev.write 19 false, Ev.sleep 2]) :=
  ⟨((sequence_fail_aborts (fun k => k == 0) 19 26 2 (1/2)).1 ⟨1, by decide, rfl⟩).1,
   ((sequence_fail_aborts (fun k => k == 0) 19 26 2 (1/2)).2 rfl rfl).1⟩

/-- Counterexample to C3: when the GPIO module is present but
`GPIO.setmode` fails during `_init_gpio`, the instance is left with
`initialized = False`, and a subsequent `pulse_pin` does NOT behave as in
mock mode: it returns `False`, not success. -/
theorem init_failure_not_mock :
    ¬ ((pulse_pin (initGpio true false) (fun _ => true) 26 (1/2)).1 = true) := by
  intro hcontra
  simp [pulse_pin, initGpio] at hcontra

/-- Claim C3 (amended): `_init_gpio` never raises and always yields a
usable instance, but the degraded behaviour depends on the failure mode:
when the GPIO module is absent (`HAS_GPIO = False`) every pin operation
runs in mock mode and returns success with no I/O; when the module is
present but initialization fails (`initialized = False`), every pin
operation returns false — still without raising and without performing
any I/O. -/
theorem init_failure_degraded (env : Nat → Bool) (pin a b : Nat) (d h t : ℚ)
    (st : Bool) :
    (initGpio true false).initialized = false ∧
    pulse_pin (initGpio false false) env pin d = (true, []) ∧
    sequence_ab (initGpio false false) env a b h t = (true, []) ∧
    pulse_pin (initGpio true false) env pin d = (false, []) ∧
    hold_pin_low (initGpio true false) env pin d = (false, []) ∧
    sequence_ab (initGpio true false) env a b h t = (false, []) ∧
    sequence_ba (initGpio true false) env a b h t = (false, []) ∧
    force_recovery_sequence (initGpio true false) env a b h = (false, []) ∧
    set_pin_state (initGpio true false) env pin st = (false, []) :=
  ⟨rfl, rfl, rfl, rfl, rfl, rfl, rfl, rfl, rfl⟩

/-- Claim C4: in mock mode (no `RPi.GPIO` module, any `initialized`
flag), every pin operation returns true and performs no I/O, for all
pins, durations, write-outcome oracles and state arguments. -/
theorem mock_mode_success (i : Bool) (env : Nat → Bool) (p a b : Nat)
    (d h t : ℚ) (st : Bool) :
    pulse_pin ⟨false, i⟩ env p d = (true, []) ∧
    hold_pin_low ⟨false, i⟩ env p d = (true, []) ∧
    sequence_ab ⟨false, i⟩ env a b h t = (true, []) ∧
    sequence_ba ⟨false, i⟩ env a b h t = (true, []) ∧
    force_recovery_sequence ⟨false, i⟩ env a b h = (true, []) ∧
    set_pin_state ⟨false, i⟩ env p st = (true, []) :=
  ⟨rfl, rfl, rfl, rfl, rfl, rfl⟩

/-- Claim C6: `hold_pin_low` is observationally identical to `pulse_pin`
at every pin, duration, service state and write oracle, and
`force_recovery_sequence r s h` equals `sequence_ab r s h 0.5`. -/
theorem hold_eq_pulse (s : GPIOService) (env : Nat → Bool) (p : Nat) (d : ℚ)
    (r rs : Nat) (ht : ℚ) :
    hold_pin_low s env p d = pulse_pin s env p d ∧
    force_recovery_sequence s env r rs ht = sequence_ab s env r rs ht (1/2) :=
  ⟨rfl, rfl⟩

/-- A JSON value as it arrives in `request.data` for the fields the views
read (strings, numbers, strict booleans, null). Python's
`isinstance(state, bool)` is true only for the `bool` constructor. -/
inductive JsonVal where
  | str (s : String)
  | num (q : ℚ)
  | bool (b : Bool)
  | null
deriving DecidableEq, Repr

/-- The `GPIOConnection` model fields the actions read. -/
structure GPIOConnection where
  reset : Nat
  force_recovery : Nat
deriving DecidableEq, Repr

/-- A DRF `FloatField(default=dflt, min_value=lo, max_value=hi)`:
a missing field yields the default; a present value passes validation
iff `lo ≤ v ≤ hi` (both validators are inclusive); otherwise the
serializer rejects the request. -/
def validateFloatField (dflt lo hi : ℚ) : Option ℚ → Option ℚ
  | none => some dflt
  | some v => if lo ≤ v ∧ v ≤ hi then some v else none

/-- `ResetActionSerializer.duration`: default 0.5, range [0.1, 5.0]. -/
def resetActionValidate : Option ℚ → Option ℚ :=
  validateFloatField (1/2) (1/10) 5

/-- `ForceRecoveryActionSerializer.hold_time`: default 2.0, range
[0.5, 10.0]. -/
def forceRecoveryActionValidate : Option ℚ → Option ℚ :=
  validateFloatField 2 (1/2) 10

/-- `GPIOConnectionViewSet.reset`: validate the body (a 400 validation
error — `none` — touches no pin), then `pulse_pin` the reset pin. -/
def reset_view (s : GPIOService) (env : Nat → Bool) (conn : GPIOConnection)
    (body : Option ℚ) : Option (Bool × List Ev) :=
  match resetActionValidate body with
  | none => none
  | some d => some (pulse_pin s env conn.reset d)

/-- `GPIOConnectionViewSet.force_recovery`: validate the body, then call
`force_recovery_sequence` with the connection's `force_recovery` pin
first and its `reset` pin second. -/
def force_recovery_view (s : GPIOService) (env : Nat → Bool)
    (conn : GPIOConnection) (body : Option ℚ) : Option (Bool × List Ev) :=
  match forceRecoveryActionValidate body with
  | none => none
  | some ht => some (force_recovery_sequence s env conn.force_recovery conn.reset ht)

/-- `GPIOConnectionViewSet.set_pin`: 400 (`none`) unless `pin` is exactly
the string "reset" or "force_recovery" and `state` is a strict boolean;
otherwise one `set_pin_state` write on the selected pin. -/
def set_pin_view (s : GPIOService) (env : Nat → Bool) (conn : GPIOConnection)
    (pin_name state : Option JsonVal) : Option (Bool × List Ev) :=
  if pin_name = some (JsonVal.str "reset") ∨
      pin_name = some (JsonVal.str "force_recovery") then
    match state with
    | some (JsonVal.bool b) =>
        some (set_pin_state s env
          (if pin_name = some (JsonVal.str "reset") then conn.reset
           else conn.force_recovery) b)
    | _ => none
  else none

/-- Claim C5: whenever the body validates, the force-recovery action runs
`sequence_ab` with the connection's force-recovery pin as the held first
argument, the reset pin second and a 0.5 s pulse; for the connection
(reset=26, force_recovery=19) with hold_time 2.0 in mock mode it reports
success. -/
theorem force_recovery_view_dispatch (s : GPIOService) (env : Nat → Bool)
    (conn : GPIOConnection) (i : Bool) :
    (∀ body v, forceRecoveryActionValidate body = some v →
      force_recovery_view s env conn body =
        some (sequence_ab s env conn.force_recovery conn.reset v (1/2))) ∧
    force_recovery_view ⟨false, i⟩ env ⟨26, 19⟩ (some 2) =
      some (sequence_ab ⟨false, i⟩ env 19 26 2 (1/2)) ∧
    force_recovery_view ⟨false, i⟩ env ⟨26, 19⟩ (some 2) = some (true, []) := by
  refine ⟨fun body v hv => ?_, ?_, ?_⟩
  · simp [force_recovery_view, hv, force_recovery_sequence]
  · have hv : forceRecoveryActionValidate (some 2) = some 2 := by
      simp [forceRecoveryActionValidate, validateFloatField]
      norm_num
    simp [force_recovery_view, hv, force_recovery_sequence]
  · have hv : forceRecoveryActionValidate (some 2) = some 2 := by
      simp [forceRecoveryActionValidate, validateFloatField]
      norm_num
    simp [force_recovery_view, hv, force_recovery_sequence, sequence_ab]

/-- Witness for C5: the mock-mode recovery action on (reset=26,
force_recovery=19) with hold_time 2.0 dispatches to
`sequence_ab 19 26 2 0.5` and succeeds. -/
theorem force_recovery_view_dispatch_witness :
    force_recovery_view ⟨false, false⟩ (fun _ => true) ⟨26, 19⟩ (some 2) =
      some (sequence_ab ⟨false, false⟩ (fun _ => true) 19 26 2 (1/2)) ∧
    force_recovery_view ⟨false, false⟩ (fun _ => true) ⟨26, 19⟩ (some 2) =
      some (true, []) :=
  ⟨(force_recovery_view_dispatch ⟨false, false⟩ (fun _ => true) ⟨26, 19⟩ false).2.1,
   (force_recovery_view_dispatch ⟨false, false⟩ (fun _ => true) ⟨26, 19⟩ false).2.2⟩

/-- Claim C7: `duration` is accepted iff it lies in [0.1, 5.0] and
`hold_time` iff it lies in [0.5, 10.0]; a rejected value makes the view
return a validation error without any pin operation; omitted values
default to 0.5 and 2.0. -/
theorem action_validation_bounds :
    (∀ v : ℚ, (resetActionValidate (some v)).isSome = true ↔ (1/10 ≤ v ∧ v ≤ 5)) ∧
    (∀ v : ℚ, (forceRecoveryActionValidate (some v)).isSome = true ↔
      (1/2 ≤ v ∧ v ≤ 10)) ∧
    (∀ s env conn v, resetActionValidate (some v) = none →
      reset_view s env conn (some v) = none) ∧
    (∀ s env conn v, forceRecoveryActionValidate (some v) = none →
      force_recovery_view s env conn (some v) = none) ∧
    resetActionValidate none = some (1/2) ∧
    forceRecoveryActionValidate none = some 2 := by
  refine ⟨fun v => ?_, fun v => ?_, fun s env conn v hv => ?_,
    fun s env conn v hv => ?_, rfl, rfl⟩
  · simp [resetActionValidate, validateFloatField]
  · simp [forceRecoveryActionValidate, validateFloatField]
  · simp [reset_view, hv]
  · simp [force_recovery_view, hv]

/-- Witness for C7 at the boundary inputs: 0.1 and 5.0 accepted, 0.09 and
5.01 rejected for `duration`; 0.5 and 10.0 accepted, 0.49 and 10.01
rejected for `hold_time`; a rejected 0.09 reaches no pin operation. -/
theorem action_validation_bounds_witness :
    (resetActionValidate (some (1/10))).isSome = true ∧
    (resetActionValidate (some 5)).isSome = true ∧
    ¬ ((resetActionValidate (some (9/100))).isSome = true) ∧
    ¬ ((resetActionValidate (some (501/100))).isSome = true) ∧
    (forceRecoveryActionValidate (some (1/2))).isSome = true ∧
    (forceRecoveryActionValidate (some 10)).isSome = true ∧
    ¬ ((forceRecoveryActionValidate (some (49/100))).isSome = true) ∧
    ¬ ((forceRecoveryActionValidate (some (1001/100))).isSome = true) ∧
    reset_view ⟨false, false⟩ (fun _ => true) ⟨26, 19⟩ (some (9/100)) = none := by
  have hrej : resetActionValidate (some (9/100)) = none := by
    simp [resetActionValidate, validateFloatField]
    norm_num
  refine ⟨(action_validation_bounds.1 (1/10)).mpr (by norm_num),
    (action_validation_bounds.1 5).mpr (by norm_num),
    fun hcon => ?_, fun hcon => ?_,
    (action_validation_bounds.2.1 (1/2)).mpr (by norm_num),
    (action_validation_bounds.2.1 10).mpr (by norm_num),
    fun hcon => ?_, fun hcon => ?_,
    action_validation_bounds.2.2.1 ⟨false, false⟩ (fun _ => true) ⟨26, 19⟩ (9/100) hrej⟩
  · have := (action_validation_bounds.1 (9/100)).mp hcon
    norm_num at this
  · have := (action_validation_bounds.1 (501/100)).mp hcon
    norm_num at this
  · have := (action_validation_bounds.2.1 (49/100)).mp hcon
    norm_num at this
  · have := (action_validation_bounds.2.1 (1001/100)).mp hcon
    norm_num at this

/-- Claim C9: the set-pin action accepts a request iff the pin name is
exactly the string "reset" or "force_recovery" and the state is a strict
boolean; in particular the numbers 1 and 0 and the string "true" are
rejected with a validation error, invoking no pin operation. -/
theorem set_pin_view_strict (s : GPIOService) (env : Nat → Bool)
    (conn : GPIOConnection) (pn st : Option JsonVal) :
    ((set_pin_view s env conn pn st).isSome = true ↔
      ((pn = some (JsonVal.str "reset") ∨ pn = some (JsonVal.str "force_recovery")) ∧
        ∃ b, st = some (JsonVal.bool b))) ∧
    set_pin_view s env conn (some (JsonVal.str "reset")) (some (JsonVal.num 1)) = none ∧
    set_pin_view s env conn (some (JsonVal.str "reset")) (some (JsonVal.num 0)) = none ∧
    set_pin_view s env conn (some (JsonVal.str "reset")) (some (JsonVal.str "true")) = none ∧
    set_pin_view s env conn (some (JsonVal.str "reset")) none = none ∧
    set_pin_view s env conn (some (JsonVal.str "RESET")) (some (JsonVal.bool true)) = none := by
  refine ⟨?_, rfl, rfl, rfl, rfl, rfl⟩
  by_cases hp : pn = some (JsonVal.str "reset") ∨ pn = some (JsonVal.str "force_recovery")
  · rcases st with _ | ⟨sv | q | b | _⟩ <;> simp [set_pin_view, hp]
  · simp [set_pin_view, hp]

/-- The `JetsonNanoDevice` model fields the connect/disconnect actions
read and write: the unique name and the nullable `connected_to` foreign
key, stored as a connection id. -/
structure JetsonNanoDevice where
  name : String
  connected_to : Option Nat
deriving DecidableEq, Repr

/-- `GPIOConnection.objects.get(id=connection_id)` over a registry of
(id, connection) rows: a missing body field (`none`) or an unknown id
raises `DoesNotExist` (modelled as `none`). -/
def lookupConnection (conns : List (Nat × GPIOConnection)) (cid : Option Nat) :
    Option GPIOConnection :=
  match cid with
  | none => none
  | some i => (conns.find? (fun p => p.1 == i)).map (fun p => p.2)

/-- `JetsonNanoDeviceViewSet.connect`: look up the connection; on
`DoesNotExist` return 404 with the device untouched, otherwise store the
connection id on the device and return 200. -/
def device_connect (conns : List (Nat × GPIOConnection))
    (device : JetsonNanoDevice) (connection_id : Option Nat) :
    JetsonNanoDevice × Nat :=
  match lookupConnection conns connection_id with
  | some _ => ({ device with connected_to := connection_id }, 200)
  | none => (device, 404)

/-- `JetsonNanoDeviceViewSet.disconnect`: 400 with the device untouched
when `connected_to` is null, otherwise clear it and return 200. -/
def device_disconnect (device : JetsonNanoDevice) : JetsonNanoDevice × Nat :=
  match device.connected_to with
  | none => (device, 400)
  | some _ => ({ device with connected_to := none }, 200)

/-- Claim C10: disconnect on an unconnected device returns 400 and leaves
the record unchanged; connect with an unknown (or missing) connection id
returns 404 and leaves `connected_to` unchanged; connect modifies the
device only when it returns 200. -/
theorem device_connect_atomic (conns : List (Nat × GPIOConnection))
    (device : JetsonNanoDevice) (cid : Option Nat) :
    (device.connected_to = none → device_disconnect device = (device, 400)) ∧
    (lookupConnection conns cid = none → device_connect conns device cid = (device, 404)) ∧
    (∀ d' st, device_connect conns device cid = (d', st) → st ≠ 200 → d' = device) := by
  refine ⟨fun hnone => ?_, fun hmiss => ?_, fun d' st heq hne => ?_⟩
  · simp [device_disconnect, hnone]
  · simp [device_connect, hmiss]
  · rcases hl : lookupConnection conns cid with _ | c <;>
      simp [device_connect, hl] at heq <;> simp_all

/-- Witness for C10: an unconnected device gets 400 from disconnect and,
against an empty registry, 404 from connect, unchanged both times. -/
theorem device_connect_atomic_witness :
    device_disconnect ⟨"Jetson-Nano-26-19", none⟩ = (⟨"Jetson-Nano-26-19", none⟩, 400) ∧
    device_connect [] ⟨"Jetson-Nano-26-19", none⟩ (some 1) =
      (⟨"Jetson-Nano-26-19", none⟩, 404) :=
  ⟨(device_connect_atomic [] ⟨"Jetson-Nano-26-19", none⟩ (some 1)).1 rfl,
   (device_connect_atomic [] ⟨"Jetson-Nano-26-19", none⟩ (some 1)).2.1 rfl⟩

/-- The `GPIOConnection` row as the provisioning command sees it: unique
name plus the (reset, force_recovery) pin pair. -/
structure GConn where
  name : String
  reset : Nat
  force_recovery : Nat
deriving DecidableEq, Repr

/-- The `JetsonNanoDevice` row as the provisioning command creates it:
unique name plus the connection it was attached to. -/
structure DevRecord where
  name : String
  connection_name : Option String
deriving DecidableEq, Repr

/-- The database state `init_gpio_devices` reads and writes. -/
structure DB where
  conns : List GConn
  devs : List DevRecord
deriving DecidableEq, Repr

/-- The fixed pin pairs of the `init_gpio_devices` command. -/
def pin_pairs : List (Nat × Nat) :=
  [(26, 19), (13, 6), (5, 11), (9, 10), (22, 27), (17, 4), (3, 2)]

/-- `GPIOConnection.objects.filter(reset=rp, force_recovery=fp)`. -/
def connMatches (rp fp : Nat) (c : GConn) : Bool :=
  c.reset == rp && c.force_recovery == fp

/-- `JetsonNanoDevice.objects.filter(name=nm)`. -/
def devMatches (nm : String) (d : DevRecord) : Bool :=
  d.name == nm

/-- The connection name `Jetson-{reset}-{recovery}` built by the command. -/
def provConnName (rp fp : Nat) : String :=
  "Jetson-" ++ toString rp ++ "-" ++ toString fp

/-- The device name `Jetson-Nano-{reset}-{recovery}` built by the command. -/
def provDevName (rp fp : Nat) : String :=
  "Jetson-Nano-" ++ toString rp ++ "-" ++ toString fp

/-- One iteration of `Command.handle`'s loop. The connection is created
unless a connection with that (reset, force_recovery) pair already
exists (`.filter(reset=..., force_recovery=...).first()`); the `name`
column of `GPIOConnection` is unique, so when the derived name
`Jetson-{r}-{f}` is already taken by another row,
`GPIOConnection.objects.create` raises `IntegrityError`, which nothing
in the command catches — the run aborts (`none`). The device named
`Jetson-Nano-{r}-{f}` is then created (attached to the found or created
connection) unless a device with exactly that name exists; since that
guard checks precisely the device's unique column, the device `create`
cannot raise. A successful `objects.create` appends a row. -/
def provisionPair (db : DB) (pr : Nat × Nat) : Option DB :=
  match db.conns.find? (connMatches pr.1 pr.2) with
  | some c =>
      match db.devs.find? (devMatches (provDevName pr.1 pr.2)) with
      | some _ => some db
      | none => some ⟨db.conns, db.devs ++ [⟨provDevName pr.1 pr.2, some c.name⟩]⟩
  | none =>
      if (db.conns.find? (fun c0 => c0.name == provConnName pr.1 pr.2)).isSome then
        none
      else
        match db.devs.find? (devMatches (provDevName pr.1 pr.2)) with
        | some _ => some ⟨db.conns ++ [⟨provConnName pr.1 pr.2, pr.1, pr.2⟩], db.devs⟩
        | none => some ⟨db.conns ++ [⟨provConnName pr.1 pr.2, pr.1, pr.2⟩],
                   db.devs ++ [⟨provDevName pr.1 pr.2, some (provConnName pr.1 pr.2)⟩]⟩

/-- The loop of `Command.handle` over a list of pairs: an uncaught
`IntegrityError` (`none`) aborts the remaining iterations. -/
def provisionAll : List (Nat × Nat) → DB → Option DB
  | [], db => some db
  | pr :: rest, db =>
      match provisionPair db pr with
      | none => none
      | some db1 => provisionAll rest db1

/-- `Command.handle` of `init_gpio_devices`: the loop over the seven
fixed pin pairs; `none` is the run aborting on an uncaught error. -/
def init_gpio_devices (db : DB) : Option DB :=
  provisionAll pin_pairs db

/-- A connection row with the pair `pr` exists. -/
def hasPair (db : DB) (pr : Nat × Nat) : Bool :=
  (db.conns.find? (connMatches pr.1 pr.2)).isSome

/-- The device row named after the pair `pr` exists. -/
def hasDev (db : DB) (pr : Nat × Nat) : Bool :=
  (db.devs.find? (devMatches (provDevName pr.1 pr.2))).isSome

/-- No foreign row squats the derived name of the pair `pr`: every
connection named `Jetson-{r}-{f}` really has the pair `(r, f)`. This is
exactly what keeps the pair-guarded `create` from violating the unique
name constraint. -/
def safeFor (db : DB) (pr : Nat × Nat) : Prop :=
  ∀ c ∈ db.conns, c.name = provConnName pr.1 pr.2 →
    c.reset = pr.1 ∧ c.force_recovery = pr.2

theorem find?_append_isSome {α : Type} (p : α → Bool) (l l' : List α)
    (h : (l.find? p).isSome = true) : ((l ++ l').find? p).isSome = true := by
  rw [List.find?_append]
  rcases hf : l.find? p with _ | a
  · rw [hf] at h
    simp at h
  · simp [hf]

theorem pin_pairs_name_inj :
    ∀ pr ∈ pin_pairs, ∀ q ∈ pin_pairs,
      provConnName pr.1 pr.2 = provConnName q.1 q.2 → pr = q := by decide

theorem provisionPair_ok (db : DB) (pr : Nat × Nat) (hs : safeFor db pr) :
    (provisionPair db pr).isSome = true := by
  rcases hc : db.conns.find? (connMatches pr.1 pr.2) with _ | c
  · have hname : db.conns.find? (fun c0 => c0.name == provConnName pr.1 pr.2) = none := by
      rcases hn : db.conns.find? (fun c0 => c0.name == provConnName pr.1 pr.2) with _ | c0
      · exact hn
      · exfalso
        have hmem := List.mem_of_find?_eq_some hn
        have heq : c0.name = provConnName pr.1 pr.2 := by
          have := List.find?_some hn
          simpa using this
        obtain ⟨h1, h2⟩ := hs c0 hmem heq
        have hmatch : connMatches pr.1 pr.2 c0 = true := by
          simp [connMatches, h1, h2]
        exact (List.find?_eq_none.mp hc c0 hmem) hmatch
    rcases hd : db.devs.find? (devMatches (provDevName pr.1 pr.2)) with _ | d <;>
      simp [provisionPair, hc, hd, hname]
  · rcases hd : db.devs.find? (devMatches (provDevName pr.1 pr.2)) with _ | d <;>
      simp [provisionPair, hc, hd]

theorem provisionPair_has (db db1 : DB) (pr : Nat × Nat)
    (h : provisionPair db pr = some db1) :
    hasPair db1 pr = true ∧ hasDev db1 pr = true := by
  rcases hc : db.conns.find? (connMatches pr.1 pr.2) with _ | c <;>
    rcases hd : db.devs.find? (devMatches (provDevName pr.1 pr.2)) with _ | d <;>
    rcases hn : db.conns.find? (fun c0 => c0.name == provConnName pr.1 pr.2) with _ | c0 <;>
    simp [provisionPair, hc, hd, hn] at h <;>
    subst h <;>
    simp [hasPair, hasDev, hc, hd, List.find?_append, connMatches, devMatches]

theorem provisionPair_mono (db db1 : DB) (pr q : Nat × Nat)
    (h : provisionPair db pr = some db1) :
    (hasPair db q = true → hasPair db1 q = true) ∧
    (hasDev db q = true → hasDev db1 q = true) := by
  rcases hc : db.conns.find? (connMatches pr.1 pr.2) with _ | c <;>
    rcases hd : db.devs.find? (devMatches (provDevName pr.1 pr.2)) with _ | d <;>
    rcases hn : db.conns.find? (fun c0 => c0.name == provConnName pr.1 pr.2) with _ | c0 <;>
    simp [provisionPair, hc, hd, hn] at h <;>
    subst h <;>
    exact ⟨fun hh => by
        first
          | exact hh
          | exact find?_append_isSome _ _ _ hh,
      fun hh => by
        first
          | exact hh
          | exact find?_append_isSome _ _ _ hh⟩

theorem provisionPair_safe (db db1 : DB) (pr q : Nat × Nat)
    (hpr : pr ∈ pin_pairs) (hq : q ∈ pin_pairs)
    (h : provisionPair db pr = some db1) (hs : safeFor db q) :
    safeFor db1 q := by
  have hnew : ∀ c ∈ [(⟨provConnName pr.1 pr.2, pr.1, pr.2⟩ : GConn)],
      c.name = provConnName q.1 q.2 → c.reset = q.1 ∧ c.force_recovery = q.2 := by
    intro c hc hname
    rcases List.mem_singleton.mp hc with rfl
    have hpq : pr = q := pin_pairs_name_inj pr hpr q hq hname
    subst hpq
    exact ⟨rfl, rfl⟩
  rcases hc : db.conns.find? (connMatches pr.1 pr.2) with _ | c <;>
    rcases hd : db.devs.find? (devMatches (provDevName pr.1 pr.2)) with _ | d <;>
    rcases hn : db.conns.find? (fun c0 => c0.name == provConnName pr.1 pr.2) with _ | c0 <;>
    simp [provisionPair, hc, hd, hn] at h <;>
    subst h <;>
    first
      | exact hs
      | · intro c hc2 hname
          rcases List.mem_append.mp hc2 with hold | hnew2
          · exact hs c hold hname
          · exact hnew c hnew2 hname

theorem provisionPair_id (db : DB) (pr : Nat × Nat)
    (hp : hasPair db pr = true) (hd : hasDev db pr = true) :
    provisionPair db pr = some db := by
  unfold hasPair at hp
  unfold hasDev at hd
  rcases hc : db.conns.find? (connMatches pr.1 pr.2) with _ | c
  · rw [hc] at hp
    simp at hp
  · rcases hdd : db.devs.find? (devMatches (provDevName pr.1 pr.2)) with _ | d
    · rw [hdd] at hd
      simp at hd
    · simp [provisionPair, hc, hdd]

theorem provisionAll_id (l : List (Nat × Nat)) (db : DB)
    (h : ∀ q ∈ l, hasPair db q = true ∧ hasDev db q = true) :
    provisionAll l db = some db := by
  induction l with
  | nil => rfl
  | cons x xs ih =>
    have hx := h x (List.mem_cons_self x xs)
    have hrw : provisionPair db x = some db := provisionPair_id db x hx.1 hx.2
    simp only [provisionAll, hrw]
    exact ih (fun q hq => h q (List.mem_cons_of_mem x hq))

theorem provisionAll_ok (l : List (Nat × Nat)) (hl : ∀ q ∈ l, q ∈ pin_pairs) :
    ∀ db : DB, (∀ q ∈ l, safeFor db q) →
    ∃ db1, provisionAll l db = some db1 ∧
      (∀ q ∈ l, hasPair db1 q = true ∧ hasDev db1 q = true) ∧
      (∀ q, (hasPair db q = true → hasPair db1 q = true) ∧
            (hasDev db q = true → hasDev db1 q = true)) := by
  induction l with
  | nil => exact fun db _ => ⟨db, rfl, by simp, fun q => ⟨id, id⟩⟩
  | cons x xs ih =>
    intro db hs
    have hxmem : x ∈ pin_pairs := hl x (List.mem_cons_self x xs)
    have hx : safeFor db x := hs x (List.mem_cons_self x xs)
    obtain ⟨dbx, hdbx⟩ := Option.isSome_iff_exists.mp (provisionPair_ok db x hx)
    have hl2 : ∀ q ∈ xs, q ∈ pin_pairs := fun q hq => hl q (List.mem_cons_of_mem x hq)
    have hxs : ∀ q ∈ xs, safeFor dbx q := fun q hq =>
      provisionPair_safe db dbx x q hxmem (hl2 q hq) hdbx (hs q (List.mem_cons_of_mem x hq))
    obtain ⟨db1, h1, h2, h3⟩ := ih hl2 dbx hxs
    refine ⟨db1, ?_, ?_, ?_⟩
    · simp only [provisionAll, hdbx]
      exact h1
    · intro q hq
      rcases List.mem_cons.mp hq with rfl | hmem
      · have hest := provisionPair_has db dbx q hdbx
        exact ⟨(h3 q).1 hest.1, (h3 q).2 hest.2⟩
      · exact h2 q hmem
    · intro q
      have hm := provisionPair_mono db dbx x q hdbx
      exact ⟨fun hh => (h3 q).1 (hm.1 hh), fun hh => (h3 q).2 (hm.2 hh)⟩

/-- Counterexample to C8: the state holding one connection named
"Jetson-26-19" with the different pin pair (5, 7) — reachable through
POST /api/connections — breaks the claim: the pair check misses, the
first `objects.create` of the run then violates the unique name
constraint, and the command aborts with an uncaught `IntegrityError`
(the second run aborts identically), so provisioning never yields the
seven connections from this state. -/
theorem init_gpio_devices_collision_aborts :
    init_gpio_devices ⟨[⟨"Jetson-26-19", 5, 7⟩], []⟩ = none := by decide

/-- Claim C8 (amended): startup provisioning of the seven fixed pin
pairs is idempotent from every state in which each connection bearing a
derived name `Jetson-{r}-{f}` of one of the seven pairs really has that
(reset, force_recovery) pair — in particular from the empty database and
from any state provisioning itself produced. From such a state the run
succeeds, a second run returns the same database unchanged with no
error, no duplicate connection or device is created (each pair is
created only if no connection with that pair exists), and every pair has
its connection row and its device row. From a state where another row
occupies a derived name, the run instead aborts on the unique-name
`IntegrityError`. -/
theorem init_gpio_devices_idempotent (db : DB)
    (hsafe : ∀ q ∈ pin_pairs, safeFor db q) :
    ∃ db1, init_gpio_devices db = some db1 ∧
      init_gpio_devices db1 = some db1 ∧
      ∀ pr ∈ pin_pairs,
        (∃ c ∈ db1.conns, c.reset = pr.1 ∧ c.force_recovery = pr.2) ∧
        (∃ d ∈ db1.devs, d.name = provDevName pr.1 pr.2) := by
  obtain ⟨db1, h1, h2, _⟩ := provisionAll_ok pin_pairs (fun q hq => hq) db hsafe
  refine ⟨db1, h1, provisionAll_id pin_pairs db1 h2, ?_⟩
  intro pr hpr
  obtain ⟨hp, hd⟩ := h2 pr hpr
  constructor
  · obtain ⟨c, hc⟩ := Option.isSome_iff_exists.mp hp
    have hmem := List.mem_of_find?_eq_some hc
    have hmatch := List.find?_some hc
    simp only [connMatches, Bool.and_eq_true, beq_iff_eq] at hmatch
    exact ⟨c, hmem, hmatch.1, hmatch.2⟩
  · obtain ⟨d, hdd⟩ := Option.isSome_iff_exists.mp hd
    have hmem := List.mem_of_find?_eq_some hdd
    have hmatch := List.find?_some hdd
    simp only [devMatches, beq_iff_eq] at hmatch
    exact ⟨d, hmem, hmatch⟩

/-- Witness for C8 from the empty database, which trivially satisfies
the name-safety hypothesis: the run succeeds, a second run is a no-op,
and every pair has its rows. -/
theorem init_gpio_devices_idempotent_witness :
    ∃ db1, init_gpio_devices (⟨[], []⟩ : DB) = some db1 ∧
      init_gpio_devices db1 = some db1 ∧
      ∀ pr ∈ pin_pairs,
        (∃ c ∈ db1.conns, c.reset = pr.1 ∧ c.force_recovery = pr.2) ∧
        (∃ d ∈ db1.devs, d.name = provDevName pr.1 pr.2) :=
  init_gpio_devices_idempotent ⟨[], []⟩ (by simp [safeFor])
